import Mathlib

/-!
Shallow embedding of `geomagio/iaga2002/IAGA2002Factory.py` (the IAGA2002
timeseries factory) and proofs about it.

Modelling conventions:
* Time instants (`obspy.core.UTCDateTime`) are rationals: seconds since the
  Unix epoch.  The repository uses a `UTCDateTime` only through
  (a) its timestamp arithmetic (`day.timestamp + 86400`, `start + 86340.0`),
  (b) the civil-date triple `(year, month, day)`, compared for equality in
  `_get_days` and rebuilt into midnight in `_get_slice`, and
  (c) `strftime("%Y%m%d")`, which renders that triple.
  Gregorian civil dates are in bijection with day counts since the epoch, and
  every use above factors through that bijection, so the triple is embedded as
  the day index `⌊t / 86400⌋` and "midnight of the triple" as `86400 * ⌊t / 86400⌋`.
* Python exceptions are an explicit error type; fallible code returns `Except`.
* Sample values are rationals (the numeric claims here are about which formula
  is computed, not about floating-point rounding).
* External collaborators that are not part of the repository (the IAGA2002
  parser, `ChannelConverter`, `urllib2`, and obspy's `merge`/`trim`/`slice`)
  are either passed in as function parameters or modelled from the spec; each
  such definition is marked in its doc comment.
-/

/-- Python exceptions raised by the code paths embedded here. -/
inductive PyError where
  /-- `TimeseriesFactoryException(msg)` -/
  | timeseriesFactoryException (msg : String)
  /-- `IndexError` (out-of-bounds sequence access) -/
  | indexError
  /-- `AttributeError` (attribute access on `None`) -/
  | attributeError
  /-- `ZeroDivisionError` -/
  | zeroDivisionError
  /-- `urllib2.URLError` and other fetch failures -/
  | urlError (msg : String)
deriving DecidableEq

/-- Python `"%s" % x` rendering of a value that may be `None`. -/
def pyStrOfOpt (s : Option String) : String :=
  match s with
  | none => "None"
  | some s => s

/-- `IAGA2002Factory._get_interval_abbreviation`: abbreviation for a data
interval; raises `TimeseriesFactoryException` for any other value (including
`None`, which falls into the `else` branch). -/
def _get_interval_abbreviation (interval : Option String) : Except PyError String :=
  if interval = some "daily" then Except.ok "day"
  else if interval = some "hourly" then Except.ok "hor"
  else if interval = some "minute" then Except.ok "min"
  else if interval = some "monthly" then Except.ok "mon"
  else if interval = some "second" then Except.ok "sec"
  else Except.error (PyError.timeseriesFactoryException
    ("Unexpected interval \"" ++ pyStrOfOpt interval ++ "\""))

/-- `IAGA2002Factory._get_interval_name`: name for a data interval; only
`minute` and `second` are supported. -/
def _get_interval_name (interval : Option String) : Except PyError String :=
  if interval = some "minute" then Except.ok "OneMinute"
  else if interval = some "second" then Except.ok "OneSecond"
  else Except.error (PyError.timeseriesFactoryException
    ("Unsupported interval \"" ++ pyStrOfOpt interval ++ "\""))

/-- `IAGA2002Factory._get_type_abbreviation`: abbreviation for a data type. -/
def _get_type_abbreviation (type : Option String) : Except PyError String :=
  if type = some "definitive" then Except.ok "d"
  else if type = some "provisional" then Except.ok "p"
  else if type = some "quasi-definitive" then Except.ok "q"
  else if type = some "variation" then Except.ok "v"
  else Except.error (PyError.timeseriesFactoryException
    ("Unexpected type \"" ++ pyStrOfOpt type ++ "\""))

/-- `IAGA2002Factory._get_type_name`: name for a data type; only `variation`
and `quasi-definitive` are supported. -/
def _get_type_name (type : Option String) : Except PyError String :=
  if type = some "variation" then Except.ok ""
  else if type = some "quasi-definitive" then Except.ok "QuasiDefinitive"
  else Except.error (PyError.timeseriesFactoryException
    ("Unsupported type \"" ++ pyStrOfOpt type ++ "\""))

/-- The calendar day of an instant: the `(year, month, day)` triple of a
`UTCDateTime`, embedded as the day index since the epoch (the two are in
bijection; the code compares triples only for equality). -/
def calendarDay (t : ℚ) : ℤ := ⌊t / 86400⌋

/-- Midnight (00:00:00) of the calendar day of `t`: the embedding of
`UTCDateTime(t.year, t.month, t.day, 0, 0, 0)`. -/
def midnightOf (t : ℚ) : ℚ := (calendarDay t : ℚ) * 86400

/-- The `while True` loop of `IAGA2002Factory._get_days`: append the cursor,
stop if its calendar day is the end's, otherwise advance by 86400 seconds.
`fuel` bounds the unrolling; `_get_days` supplies enough fuel whenever the
Python loop terminates (proved below), so no behaviour is lost. -/
def getDaysLoop (lastday : ℤ) : ℚ → Nat → List ℚ
  | _, 0 => []
  | day, fuel + 1 =>
    day :: (if calendarDay day = lastday then []
            else getDaysLoop lastday (day + 86400) fuel)

/-- `IAGA2002Factory._get_days`: days between (inclusive) starttime and
endtime; raises if starttime is after endtime. -/
def _get_days (starttime endtime : ℚ) : Except PyError (List ℚ) :=
  if endtime < starttime then
    Except.error (PyError.timeseriesFactoryException
      "starttime must be before endtime")
  else
    Except.ok (getDaysLoop (calendarDay endtime) starttime
      ((calendarDay endtime - calendarDay starttime).toNat + 1))

/-- The instant emitted for step `k` of the `_get_days` loop
(`starttime + k * 86400`). -/
def dayStep (day : ℚ) (k : Nat) : ℚ := day + (k : ℚ) * 86400

/-- File-level metadata produced by the external `IAGA2002Parser`
(station code, geodetic coordinates, and any other header fields; kept
abstract as a station code plus arbitrary extra key/value pairs). -/
structure Metadata where
  station : String
  extra : List (String × String)
deriving DecidableEq

/-- Per-trace metadata (`obspy.core.Stats`): built from the parser metadata
and then assigned `starttime`, `sampling_rate`, `npts` and `channel`. -/
structure Stats where
  metadata : Metadata
  starttime : ℚ
  sampling_rate : ℚ
  npts : Nat
  channel : String
deriving DecidableEq

/-- `stats.station` (copied from the parser metadata). -/
def Stats.station (s : Stats) : String := s.metadata.station

/-- `stats.endtime`, derived by obspy as
`starttime + (npts - 1) / sampling_rate`. -/
def Stats.endtime (s : Stats) : ℚ :=
  s.starttime + ((s.npts : ℚ) - 1) / s.sampling_rate

/-- `obspy.core.Trace`: per-trace metadata plus the sample sequence. -/
structure Trace where
  stats : Stats
  data : List ℚ
deriving DecidableEq

/-- An obspy timeseries stream: an ordered collection of traces (named
`ObsStream` here because `Stream` is taken by the Lean core library). -/
abbrev ObsStream := List Trace

/-- Result of the external `IAGA2002Parser.parse`: file metadata, the ordered
parsed timestamps, and the mapping from channel code to sample sequence
(a Python dict; keys are unique, embedded as an association list). -/
structure ParserOutput where
  metadata : Metadata
  times : List ℚ
  data : List (String × List ℚ)
deriving DecidableEq

/-- `IAGA2002Factory.parse_string`, after the external parser has produced
its result: derives start/end from the parsed timestamps, the sample count
from the first channel, the sampling rate as `(length - 1) / (endtime -
starttime)`, converts the declination channel `D` through the channel
converter `conv` (the external `ChannelConverter.get_radians_from_minutes`,
passed as a parameter), and builds one trace per channel.  Empty `times` or
`data` raise `IndexError` (`times[0]`, `data.keys()[0]`); a zero duration
raises `ZeroDivisionError`. -/
def parse_string_core (conv : List ℚ → List ℚ) (p : ParserOutput) :
    Except PyError ObsStream :=
  match p.times with
  | [] => Except.error PyError.indexError
  | t0 :: _ =>
    let starttime := t0
    let endtime := p.times.getLastD 0
    match p.data with
    | [] => Except.error PyError.indexError
    | (_, s0) :: _ =>
      let length := s0.length
      if endtime - starttime = 0 then Except.error PyError.zeroDivisionError
      else
        let rate := ((length : ℚ) - 1) / (endtime - starttime)
        Except.ok (p.data.map fun cd =>
          { stats := { metadata := p.metadata, starttime := starttime,
                       sampling_rate := rate, npts := length,
                       channel := cd.1 },
            data := if cd.1 = "D" then conv cd.2 else cd.2 })

/-- `IAGA2002Factory.parse_string`: run the external parser `pa` on the raw
string, then process its result. -/
def parse_string (pa : String → Except PyError ParserOutput)
    (conv : List ℚ → List ℚ) (iaga2002String : String) :
    Except PyError ObsStream := do
  parse_string_core conv (← pa iaga2002String)

/-- Modelled from the spec: `date.strftime("%Y%m%d")` renders the calendar
date of the instant; civil dates are in bijection with day indices, so the
day index is rendered (no claim depends on the text of the date). -/
def ymdString (t : ℚ) : String := toString (calendarDay t)

/-- Python `str.startswith(pre)`. -/
def pyStartsWith (s pre : String) : Bool :=
  pre.data.isPrefixOf s.data

/-- Python `str.replace` over character lists: replace every non-overlapping
occurrence of `pat`, scanning left to right (used only with non-empty `pat`). -/
def replaceList (pat rep : List Char) (s : List Char) : List Char :=
  match s with
  | [] => []
  | c :: rest =>
    if pat.isPrefixOf (c :: rest) then
      rep ++ replaceList pat rep (rest.drop (pat.length - 1))
    else
      c :: replaceList pat rep rest
termination_by s.length
decreasing_by
  · simp only [List.length_drop, List.length_cons]
    omega
  · simp only [List.length_cons]
    omega

/-- Python `str.replace(pat, rep)`. -/
def pyReplace (s pat rep : String) : String :=
  ⟨replaceList pat.data rep.data s.data⟩

/-- Modelled from the spec: Python `%`-mapping substitution of
`urlTemplate` over the seven documented placeholders. -/
def renderTemplate (template i intervalName obs OBS t typeName ymd : String) :
    String :=
  pyReplace (pyReplace (pyReplace (pyReplace (pyReplace (pyReplace (pyReplace
    template "%(i)s" i)
    "%(interval)s" intervalName)
    "%(obs)s" obs)
    "%(OBS)s" OBS)
    "%(t)s" t)
    "%(type)s" typeName)
    "%(ymd)s" ymd

/-- `IAGA2002Factory._get_url`: substitute the template placeholders.  The
dict literal evaluates its entries in order (`i`, `interval`, `obs`, `OBS`,
`t`, `type`, `ymd`), so the interval lookups fail first, then
`observatory.lower()` (an `AttributeError` when the observatory is `None`),
then the type lookups. -/
def _get_url (urlTemplate : String) (observatory : Option String) (date : ℚ)
    (type interval : Option String) : Except PyError String := do
  let i ← _get_interval_abbreviation interval
  let intervalName ← _get_interval_name interval
  let obs ← (match observatory with
    | some o => Except.ok o
    | none => Except.error PyError.attributeError)
  let t ← _get_type_abbreviation type
  let typeName ← _get_type_name type
  Except.ok (renderTemplate urlTemplate i intervalName
    obs.toLower obs.toUpper t typeName (ymdString date))

/-- Python `arg or dflt` for a string argument that may be `None`:
`None` and the empty string are falsy. -/
def pyOrStr (arg dflt : Option String) : Option String :=
  match arg with
  | none => dflt
  | some s => if s = "" then dflt else some s

/-- Python `arg or dflt` for a channel-list argument that may be `None`:
`None` and the empty list are falsy. -/
def pyOrList (arg dflt : Option (List String)) : Option (List String) :=
  match arg with
  | none => dflt
  | some l => if l = [] then dflt else some l

/-- Python `arg or dflt` for a `UTCDateTime` argument that may be `None`
(instants are truthy objects). -/
def pyOrTime (arg : Option ℚ) (dflt : ℚ) : ℚ := arg.getD dflt

/-- The immutable configuration of an `IAGA2002Factory` instance: the url
template and the default observatory/channels/type/interval (each may be
`None`). -/
structure FactoryConfig where
  urlTemplate : String
  observatory : Option String
  channels : Option (List String)
  type : Option String
  interval : Option String
deriving DecidableEq

/-- The sampling instant of sample `i` of a trace
(`starttime + i / sampling_rate`). -/
def sampleTime (st : Stats) (i : Nat) : ℚ :=
  st.starttime + (i : ℚ) / st.sampling_rate

/-- Modelled from the spec: obspy `Trace` slicing/trimming — keep exactly
the samples whose instants lie inside the window, dropping samples outside
it, never extrapolating. -/
def sliceTrace (tr : Trace) (s e : ℚ) : Trace :=
  let kept := tr.data.enum.filter fun p =>
    decide (s ≤ sampleTime tr.stats p.1) && decide (sampleTime tr.stats p.1 ≤ e)
  { stats := { tr.stats with
      starttime := match kept with
        | [] => tr.stats.starttime
        | q :: _ => sampleTime tr.stats q.1,
      npts := kept.length },
    data := kept.map (fun q => q.2) }

/-- Modelled from the spec: obspy stream slicing — slice every trace to the
window. -/
def sliceStream (ts : ObsStream) (s e : ℚ) : ObsStream :=
  ts.map (fun tr => sliceTrace tr s e)

/-- Modelled from the spec: obspy stream trimming `trim(start, end)` — trim every
trace to exactly the requested window, dropping samples outside it. -/
def trimStream (ts : ObsStream) (s e : ℚ) : ObsStream :=
  ts.map (fun tr => sliceTrace tr s e)

/-- Modelled from the spec: obspy stream merging — merge same-channel traces
into single traces, "a pure concatenation keyed by channel code". -/
def mergeStream (ts : ObsStream) : ObsStream :=
  ((ts.map (fun tr => tr.stats.channel)).dedup).filterMap fun c =>
    match ts.filter (fun tr => tr.stats.channel = c) with
    | [] => none
    | tr0 :: rest =>
      let joined := ((tr0 :: rest).map (fun tr => tr.data)).flatten
      some { stats := { tr0.stats with npts := joined.length },
             data := joined }

/-- `IAGA2002Factory.get_timeseries`: resolve defaults (Python `or`), list
the days, fetch (`read_url`, passed as `ru`) and parse each day's address,
then merge and trim.  The resolved channel list is (faithfully) unused. -/
def get_timeseries (ru : String → Except PyError String)
    (pa : String → Except PyError ParserOutput) (conv : List ℚ → List ℚ)
    (cfg : FactoryConfig) (starttime endtime : ℚ)
    (observatory : Option String) (channels : Option (List String))
    (type interval : Option String) : Except PyError ObsStream := do
  let observatory := pyOrStr observatory cfg.observatory
  let _channels := pyOrList channels cfg.channels
  let type := pyOrStr type cfg.type
  let interval := pyOrStr interval cfg.interval
  let days ← _get_days starttime endtime
  let perDay ← days.mapM (fun day => do
    let url ← _get_url cfg.urlTemplate observatory day type interval
    let iagaFile ← ru url
    parse_string pa conv iagaFile)
  Except.ok (trimStream (mergeStream perDay.flatten) starttime endtime)

/-- `IAGA2002Factory._get_file_from_url`: strip the `file://` prefix,
failing for any other scheme.  (The accompanying `os.makedirs` of the parent
directory is an I/O effect outside the claims and is not recorded.) -/
def _get_file_from_url (url : String) : Except PyError String :=
  if pyStartsWith url "file://" then Except.ok (pyReplace url "file://" "")
  else Except.error (PyError.timeseriesFactoryException
    "Only file urls are supported for writing")

/-- `IAGA2002Factory._get_slice`: rebuild midnight of the day's civil date
(`UTCDateTime(day.year, day.month, day.day, 0, 0, 0)`), then slice the
stream to `[start, start + 86340.0]` for minute interval and
`[start, start + 86399.999999]` otherwise. -/
def _get_slice (timeseries : ObsStream) (day : ℚ) (interval : Option String) :
    ObsStream :=
  let start := midnightOf day
  let stop := if interval = some "minute" then start + 86340
    else start + (86399999999 : ℚ) / 1000000
  sliceStream timeseries start stop

/-- One file written by `put_timeseries`: the destination path, the sliced
day stream handed to the writer, and the channel selection. -/
structure WriteEffect where
  filename : String
  content : ObsStream
  channels : Option (List String)
deriving DecidableEq

/-- The per-day loop of `put_timeseries`: resolve each day's address, slice
the stream to the day, and write one file per day.  Returns the writes
performed in order plus the first error, if any. -/
def putDays (cfg : FactoryConfig) (timeseries : ObsStream)
    (observatory : String) (type interval : Option String)
    (channels : Option (List String)) :
    List ℚ → List WriteEffect × Option PyError
  | [] => ([], none)
  | day :: rest =>
    match _get_url cfg.urlTemplate (some observatory) day type interval with
    | Except.error e => ([], some e)
    | Except.ok url =>
      match _get_file_from_url url with
      | Except.error e => ([], some e)
      | Except.ok day_filename =>
        let day_timeseries := _get_slice timeseries day interval
        let (effs, err) :=
          putDays cfg timeseries observatory type interval channels rest
        ({ filename := day_filename, content := day_timeseries,
           channels := channels } :: effs, err)

/-- `IAGA2002Factory.put_timeseries`: require a `file://` template, resolve
defaults (Python `or`), read the first trace's stats for the station code
and default start/end (`timeseries[0]` — an `IndexError` on an empty
stream), list the days and write one file per day. -/
def put_timeseries (cfg : FactoryConfig) (timeseries : ObsStream)
    (starttime endtime : Option ℚ) (channels : Option (List String))
    (type interval : Option String) : List WriteEffect × Option PyError :=
  if pyStartsWith cfg.urlTemplate "file://" then
    let channels := pyOrList channels cfg.channels
    let type := pyOrStr type cfg.type
    let interval := pyOrStr interval cfg.interval
    match timeseries with
    | [] => ([], some PyError.indexError)
    | tr0 :: _ =>
      let stats := tr0.stats
      let observatory := stats.station
      let starttime := pyOrTime starttime stats.starttime
      let endtime := pyOrTime endtime stats.endtime
      match _get_days starttime endtime with
      | Except.error e => ([], some e)
      | Except.ok days =>
        putDays cfg timeseries observatory type interval channels days
  else
    ([], some (PyError.timeseriesFactoryException "Only file urls are supported"))

deriving instance DecidableEq for Except

/-- A concrete parser metadata value, for evaluating the embedding. -/
def sampleMetadata : Metadata := { station := "BOU", extra := [] }

/-- A concrete parser result: two timestamps one minute apart, a declination
channel `D` and a second channel `H`. -/
def sampleParserOutput : ParserOutput :=
  { metadata := sampleMetadata, times := [0, 60],
    data := [("D", [1, 2]), ("H", [3, 4])] }

/-- A concrete external parser returning `sampleParserOutput` for any
input. -/
def sampleParse : String → Except PyError ParserOutput :=
  fun _ => Except.ok sampleParserOutput

/-- A concrete channel converter (doubling), standing in for the external
arc-minutes-to-radians conversion. -/
def sampleConv : List ℚ → List ℚ := fun l => l.map (fun x => x * 2)

/-- The stream `parse_string` produces from `sampleParserOutput` with
`sampleConv`: rate `(2 - 1) / (60 - 0) = 1/60`, `D` converted, `H`
untouched. -/
def sampleStream : ObsStream :=
  [ { stats := { metadata := sampleMetadata, starttime := 0,
                 sampling_rate := 1 / 60, npts := 2, channel := "D" },
      data := [2, 4] },
    { stats := { metadata := sampleMetadata, starttime := 0,
                 sampling_rate := 1 / 60, npts := 2, channel := "H" },
      data := [3, 4] } ]

-- Basic facts about the day model.

lemma calendarDay_add_86400 (t : ℚ) :
    calendarDay (t + 86400) = calendarDay t + 1 := by
  unfold calendarDay
  have h : (t + 86400) / 86400 = t / 86400 + 1 := by
    rw [add_div]
    norm_num
  rw [h, Int.floor_add_one]

lemma calendarDay_mono {s e : ℚ} (h : s ≤ e) : calendarDay s ≤ calendarDay e := by
  unfold calendarDay
  apply Int.floor_le_floor
  gcongr

lemma calendarDay_add_nat_mul (t : ℚ) (k : Nat) :
    calendarDay (t + k * 86400) = calendarDay t + k := by
  induction k with
  | zero => simp
  | succ n ih =>
    have h : t + ((n : ℚ) + 1) * 86400 = (t + n * 86400) + 86400 := by ring
    push_cast
    push_cast at ih
    rw [h, calendarDay_add_86400, ih]
    ring

lemma calendarDay_eq_of {t : ℚ} {n : ℤ} (h1 : (n : ℚ) * 86400 ≤ t)
    (h2 : t < ((n : ℚ) + 1) * 86400) : calendarDay t = n := by
  unfold calendarDay
  rw [Int.floor_eq_iff]
  constructor
  · rw [le_div_iff₀ (by norm_num : (0:ℚ) < 86400)]
    linarith
  · rw [div_lt_iff₀ (by norm_num : (0:ℚ) < 86400)]
    linarith

lemma dayStep_map_shift (day : ℚ) (m : Nat) :
    (List.range (m + 1)).map (dayStep day)
      = day :: (List.range m).map (dayStep (day + 86400)) := by
  rw [List.range_succ_eq_map]
  simp only [List.map_cons, List.map_map]
  refine congrArg₂ List.cons ?_ ?_
  · simp [dayStep]
  · apply List.map_congr_left
    intro a _
    simp only [Function.comp_apply, dayStep]
    push_cast
    ring

/-- Closed form of the `_get_days` loop when the fuel suffices. -/
lemma getDaysLoop_eq (lastday : ℤ) :
    ∀ (fuel : Nat) (day : ℚ), calendarDay day ≤ lastday →
      (lastday - calendarDay day).toNat < fuel →
      getDaysLoop lastday day fuel
        = (List.range ((lastday - calendarDay day).toNat + 1)).map (dayStep day) := by
  intro fuel
  induction fuel with
  | zero => intro day _ hf; omega
  | succ n ih =>
    intro day hle hf
    by_cases hstop : calendarDay day = lastday
    · have h0 : (lastday - calendarDay day).toNat = 0 := by omega
      rw [getDaysLoop, if_pos hstop, h0]
      simp [dayStep, List.range_succ]
    · have hlt : calendarDay day < lastday := lt_of_le_of_ne hle hstop
      have hstep : calendarDay (day + 86400) = calendarDay day + 1 :=
        calendarDay_add_86400 day
      have hle' : calendarDay (day + 86400) ≤ lastday := by omega
      have hf' : (lastday - calendarDay (day + 86400)).toNat < n := by omega
      have hrec := ih (day + 86400) hle' hf'
      have hn : (lastday - calendarDay day).toNat
          = (lastday - calendarDay (day + 86400)).toNat + 1 := by omega
      conv_rhs => rw [hn, dayStep_map_shift]
      rw [getDaysLoop, if_neg hstop, hrec]

lemma calendarDay_dayStep (t : ℚ) (k : Nat) :
    calendarDay (dayStep t k) = calendarDay t + k := by
  unfold dayStep
  exact calendarDay_add_nat_mul t k

/-- When start ≤ end, `_get_days` succeeds and returns the arithmetic
progression `starttime + k * 86400`, one step per calendar day spanned. -/
lemma _get_days_ok {s e : ℚ} (h : s ≤ e) :
    _get_days s e
      = Except.ok ((List.range ((calendarDay e - calendarDay s).toNat + 1)).map
          (dayStep s)) := by
  unfold _get_days
  rw [if_neg (not_lt.mpr h)]
  congr 1
  exact getDaysLoop_eq (calendarDay e) ((calendarDay e - calendarDay s).toNat + 1)
    s (calendarDay_mono h) (by omega)

lemma calendarDay_midnightOf (t : ℚ) :
    calendarDay (midnightOf t) = calendarDay t := by
  unfold midnightOf calendarDay
  rw [mul_div_cancel_right₀ _ (by norm_num : (86400 : ℚ) ≠ 0)]
  exact Int.floor_intCast _

/-- C2, counterexample: the claim "every instant emitted by `_get_days` is
the natural start-of-day (00:00:00) of its calendar day" is false: for
`start = end = 18000` (1970-01-01T05:00:00) the enumerator emits `18000`
itself, which is not midnight of its day. -/
theorem C2_counterexample :
    ¬ (∀ s e : ℚ, s ≤ e → ∀ days, _get_days s e = Except.ok days →
        ∀ t ∈ days, t = midnightOf t) := by
  intro hclaim
  have hc : calendarDay (18000 : ℚ) = 0 :=
    calendarDay_eq_of (by norm_num) (by norm_num)
  have hdays : _get_days 18000 18000 = Except.ok [(18000 : ℚ)] := by
    unfold _get_days
    rw [if_neg (lt_irrefl (18000 : ℚ)), hc]
    simp [getDaysLoop, hc]
  have h18 := hclaim 18000 18000 le_rfl [(18000 : ℚ)] hdays 18000 (by simp)
  rw [midnightOf, hc] at h18
  norm_num at h18

/-- C2, amended: for every start ≤ end, `_get_days` emits the instants
`starttime + k * 86400` for `k = 0 .. (calendar-day span)`; they fall one per
calendar day touched by `[start, end]`, covering both endpoints' days in
order, but each keeps starttime's time-of-day rather than being normalized
to 00:00:00 — they are day-boundary instants exactly when starttime itself
is a start-of-day. -/
theorem C2_days_touched (s e : ℚ) (h : s ≤ e) :
    ∃ days, _get_days s e = Except.ok days ∧
      days = (List.range ((calendarDay e - calendarDay s).toNat + 1)).map
        (dayStep s) ∧
      days.map calendarDay
        = (List.range ((calendarDay e - calendarDay s).toNat + 1)).map
            (fun k : Nat => calendarDay s + (k : ℤ)) ∧
      (s = midnightOf s → ∀ t ∈ days, t = midnightOf t) := by
  refine ⟨_, _get_days_ok h, rfl, ?_, ?_⟩
  · rw [List.map_map]
    apply List.map_congr_left
    intro k _
    simp only [Function.comp_apply]
    exact calendarDay_dayStep s k
  · intro hmid t ht
    rcases List.mem_map.mp ht with ⟨k, _, rfl⟩
    unfold midnightOf
    rw [calendarDay_dayStep]
    rw [midnightOf] at hmid
    unfold dayStep
    push_cast
    linarith

/-- Witness for C2: instantiation at `start = 0`, `end = 90000`. -/
theorem C2_witness :
    (0 : ℚ) ≤ 90000 ∧
    (∃ days, _get_days 0 90000 = Except.ok days ∧
      days = (List.range ((calendarDay 90000 - calendarDay 0).toNat + 1)).map
        (dayStep 0) ∧
      days.map calendarDay
        = (List.range ((calendarDay 90000 - calendarDay 0).toNat + 1)).map
            (fun k : Nat => calendarDay 0 + (k : ℤ)) ∧
      ((0 : ℚ) = midnightOf 0 → ∀ t ∈ days, t = midnightOf t)) :=
  ⟨by norm_num, C2_days_touched 0 90000 (by norm_num)⟩

/-- C3: for every start ≤ end, `_get_days` terminates with a list whose
length is the inclusive number of calendar days spanned, and is never
empty — including the degenerate case start = end. -/
theorem C3_day_count (s e : ℚ) (h : s ≤ e) :
    ∃ days, _get_days s e = Except.ok days ∧
      days.length = (calendarDay e - calendarDay s).toNat + 1 ∧
      1 ≤ days.length := by
  refine ⟨_, _get_days_ok h, ?_, ?_⟩
  · simp
  · simp

/-- Witness for C3: instantiation at the degenerate range
`start = end = 18000`. -/
theorem C3_witness :
    (18000 : ℚ) ≤ 18000 ∧
    (∃ days, _get_days 18000 18000 = Except.ok days ∧
      days.length = (calendarDay 18000 - calendarDay 18000).toNat + 1 ∧
      1 ≤ days.length) :=
  ⟨le_refl _, C3_day_count 18000 18000 (le_refl _)⟩

/-- C4: `_get_days` raises `TimeseriesFactoryException` with message
"starttime must be before endtime" exactly when start is strictly after
end. -/
theorem C4_invalid_range_iff (s e : ℚ) :
    _get_days s e
        = Except.error (PyError.timeseriesFactoryException
            "starttime must be before endtime")
      ↔ e < s := by
  constructor
  · intro heq
    by_contra hnot
    rw [_get_days_ok (not_lt.mp hnot)] at heq
    simp at heq
  · intro hlt
    unfold _get_days
    rw [if_pos hlt]

/-- C5: for every timeseries, day instant and interval, `_get_slice`
slices to a window that starts at midnight (00:00:00) of the day's calendar
date (the start is itself a start-of-day instant lying in the same calendar
day) and spans exactly 86340 seconds for minute interval, 86399.999999
seconds for every other interval. -/
theorem C5_slice_window (ts : ObsStream) (day : ℚ) (interval : Option String) :
    _get_slice ts day interval
        = sliceStream ts (midnightOf day)
            (midnightOf day +
              (if interval = some "minute" then (86340 : ℚ)
               else (86399999999 : ℚ) / 1000000))
      ∧ midnightOf (midnightOf day) = midnightOf day
      ∧ calendarDay (midnightOf day) = calendarDay day := by
  refine ⟨?_, ?_, calendarDay_midnightOf day⟩
  · by_cases hm : interval = some "minute"
    · simp only [_get_slice, if_pos hm]
    · simp only [_get_slice, if_neg hm]
  · show (calendarDay (midnightOf day) : ℚ) * 86400 = midnightOf day
    rw [calendarDay_midnightOf day]
    rfl

-- Lookup failure forms for values outside each lookup's accepted set.

lemma interval_abbr_err {iv : String} (h1 : iv ≠ "daily") (h2 : iv ≠ "hourly")
    (h3 : iv ≠ "minute") (h4 : iv ≠ "monthly") (h5 : iv ≠ "second") :
    _get_interval_abbreviation (some iv)
      = Except.error (PyError.timeseriesFactoryException
          ("Unexpected interval \"" ++ iv ++ "\"")) := by
  unfold _get_interval_abbreviation
  rw [if_neg (by simp [h1]), if_neg (by simp [h2]), if_neg (by simp [h3]),
    if_neg (by simp [h4]), if_neg (by simp [h5])]
  rfl

lemma type_abbr_err {ty : String} (h1 : ty ≠ "definitive")
    (h2 : ty ≠ "provisional") (h3 : ty ≠ "quasi-definitive")
    (h4 : ty ≠ "variation") :
    _get_type_abbreviation (some ty)
      = Except.error (PyError.timeseriesFactoryException
          ("Unexpected type \"" ++ ty ++ "\"")) := by
  unfold _get_type_abbreviation
  rw [if_neg (by simp [h1]), if_neg (by simp [h2]), if_neg (by simp [h3]),
    if_neg (by simp [h4])]
  rfl

lemma type_name_err {ty : String} (h1 : ty ≠ "variation")
    (h2 : ty ≠ "quasi-definitive") :
    _get_type_name (some ty)
      = Except.error (PyError.timeseriesFactoryException
          ("Unsupported type \"" ++ ty ++ "\"")) := by
  unfold _get_type_name
  rw [if_neg (by simp [h1]), if_neg (by simp [h2])]
  rfl

-- Error propagation through the evaluation order of `_get_url`.

lemma _get_url_err_abbr {interval : Option String} {er : PyError}
    (h : _get_interval_abbreviation interval = Except.error er)
    (template : String) (observatory : Option String) (date : ℚ)
    (type : Option String) :
    _get_url template observatory date type interval = Except.error er := by
  unfold _get_url
  rw [h]
  rfl

lemma _get_url_err_iname {interval : Option String} {a : String} {er : PyError}
    (ha : _get_interval_abbreviation interval = Except.ok a)
    (h : _get_interval_name interval = Except.error er)
    (template : String) (observatory : Option String) (date : ℚ)
    (type : Option String) :
    _get_url template observatory date type interval = Except.error er := by
  unfold _get_url
  rw [ha, h]
  rfl

lemma _get_url_err_tabbr {interval type : Option String} {a n : String}
    {er : PyError}
    (ha : _get_interval_abbreviation interval = Except.ok a)
    (hn : _get_interval_name interval = Except.ok n)
    (h : _get_type_abbreviation type = Except.error er)
    (template obs : String) (date : ℚ) :
    _get_url template (some obs) date type interval = Except.error er := by
  unfold _get_url
  rw [ha, hn, h]
  rfl

lemma _get_url_err_tname {interval type : Option String} {a n t : String}
    {er : PyError}
    (ha : _get_interval_abbreviation interval = Except.ok a)
    (hn : _get_interval_name interval = Except.ok n)
    (ht : _get_type_abbreviation type = Except.ok t)
    (h : _get_type_name type = Except.error er)
    (template obs : String) (date : ℚ) :
    _get_url template (some obs) date type interval = Except.error er := by
  unfold _get_url
  rw [ha, hn, ht, h]
  rfl

/-- C1, counterexample: `daily` appears in the spec's interval vocabulary
table, and `variation` in the type table, yet `_get_url` raises
`TimeseriesFactoryException` for them, because `_get_interval_name`
supports only `minute` and `second`. -/
theorem C1_counterexample :
    _get_url "file://data/%(obs)s%(ymd)s" (some "bou") 0
        (some "variation") (some "daily")
      = Except.error (PyError.timeseriesFactoryException
          "Unsupported interval \"daily\"") := by rfl

/-- C1, amended: address resolution through `_get_url` succeeds exactly for
interval ∈ {minute, second} and type ∈ {variation, quasi-definitive}; for
every other pair of values — including the remaining vocabulary-table values
daily, hourly, monthly, definitive and provisional — it fails with a
`TimeseriesFactoryException`, because `_get_interval_name` and
`_get_type_name` accept only the narrower sets. -/
theorem C1_address_resolution (template obs : String) (date : ℚ)
    (ty iv : String) :
    ((iv = "minute" ∨ iv = "second") ∧
        (ty = "variation" ∨ ty = "quasi-definitive") →
      ∃ u, _get_url template (some obs) date (some ty) (some iv)
          = Except.ok u)
    ∧ (¬ ((iv = "minute" ∨ iv = "second") ∧
          (ty = "variation" ∨ ty = "quasi-definitive")) →
      ∃ msg, _get_url template (some obs) date (some ty) (some iv)
          = Except.error (PyError.timeseriesFactoryException msg)) := by
  constructor
  · rintro ⟨hiv | hiv, hty | hty⟩ <;> subst hiv <;> subst hty <;> exact ⟨_, rfl⟩
  · intro hnot
    by_cases hiv : iv = "minute" ∨ iv = "second"
    · have hty1 : ty ≠ "variation" := fun h' => hnot ⟨hiv, Or.inl h'⟩
      have hty2 : ty ≠ "quasi-definitive" := fun h' => hnot ⟨hiv, Or.inr h'⟩
      by_cases h1 : ty = "definitive"
      · subst h1
        rcases hiv with rfl | rfl <;>
          exact ⟨_, _get_url_err_tname (by rfl) (by rfl) (by rfl) (by rfl)
            template obs date⟩
      · by_cases h2 : ty = "provisional"
        · subst h2
          rcases hiv with rfl | rfl <;>
            exact ⟨_, _get_url_err_tname (by rfl) (by rfl) (by rfl) (by rfl)
              template obs date⟩
        · rcases hiv with rfl | rfl <;>
            exact ⟨_, _get_url_err_tabbr (by rfl) (by rfl)
              (type_abbr_err h1 h2 hty2 hty1) template obs date⟩
    · push_neg at hiv
      by_cases h1 : iv = "daily"
      · subst h1
        exact ⟨_, _get_url_err_iname (by rfl) (by rfl) template (some obs)
          date (some ty)⟩
      · by_cases h2 : iv = "hourly"
        · subst h2
          exact ⟨_, _get_url_err_iname (by rfl) (by rfl) template (some obs)
            date (some ty)⟩
        · by_cases h3 : iv = "monthly"
          · subst h3
            exact ⟨_, _get_url_err_iname (by rfl) (by rfl) template (some obs)
              date (some ty)⟩
          · exact ⟨_, _get_url_err_abbr
              (interval_abbr_err h1 h2 hiv.1 h3 hiv.2) template (some obs) date
              (some ty)⟩

/-- Witness for C1: both directions at concrete values — resolution succeeds
for (minute, variation) and fails for (minute, bogus). -/
theorem C1_witness :
    (∃ u, _get_url "file://data/%(obs)s" (some "bou") 0
        (some "variation") (some "minute") = Except.ok u) ∧
    (∃ msg, _get_url "file://data/%(obs)s" (some "bou") 0
        (some "bogus") (some "minute")
      = Except.error (PyError.timeseriesFactoryException msg)) :=
  ⟨(C1_address_resolution "file://data/%(obs)s" "bou" 0 "variation" "minute").1
      ⟨Or.inl rfl, Or.inl rfl⟩,
    (C1_address_resolution "file://data/%(obs)s" "bou" 0 "bogus" "minute").2
      (by decide)⟩

/-- C6: whenever the configured address template does not denote a
local-filesystem sink (does not start with `file://`), `put_timeseries`
fails with the unsupported-sink `TimeseriesFactoryException` and performs
no write effect at all — the check is the first statement of the method. -/
theorem C6_non_file_sink (cfg : FactoryConfig) (ts : ObsStream)
    (st et : Option ℚ) (ch : Option (List String)) (ty iv : Option String)
    (h : pyStartsWith cfg.urlTemplate "file://" = false) :
    put_timeseries cfg ts st et ch ty iv
      = ([], some (PyError.timeseriesFactoryException
          "Only file urls are supported")) := by
  unfold put_timeseries
  rw [if_neg (by simp [h])]

/-- Witness for C6: a `https://` template. -/
theorem C6_witness :
    pyStartsWith "https://example.com/%(obs)s%(ymd)s" "file://" = false ∧
    put_timeseries
        ⟨"https://example.com/%(obs)s%(ymd)s", none, none, none, none⟩
        [] none none none none none
      = ([], some (PyError.timeseriesFactoryException
          "Only file urls are supported")) :=
  ⟨by decide,
    C6_non_file_sink ⟨"https://example.com/%(obs)s%(ymd)s", none, none, none,
      none⟩ [] none none none none none (by decide)⟩

/-- C9: in `get_timeseries` and `put_timeseries`, a falsy argument (empty
string observatory, empty channel list, empty type or interval string)
behaves identically to an omitted (`None`) argument — Python `or` replaces
both by the factory default, so an explicit empty channel list selects the
configured default channels. -/
theorem C9_falsy_arguments (ru : String → Except PyError String)
    (pa : String → Except PyError ParserOutput) (conv : List ℚ → List ℚ)
    (cfg : FactoryConfig) (s e : ℚ) (obs : Option String)
    (ch : Option (List String)) (ty iv : Option String)
    (ts : ObsStream) (pst pet : Option ℚ) :
    (get_timeseries ru pa conv cfg s e (some "") ch ty iv
        = get_timeseries ru pa conv cfg s e none ch ty iv)
    ∧ (get_timeseries ru pa conv cfg s e obs (some []) ty iv
        = get_timeseries ru pa conv cfg s e obs none ty iv)
    ∧ (get_timeseries ru pa conv cfg s e obs ch (some "") iv
        = get_timeseries ru pa conv cfg s e obs ch none iv)
    ∧ (get_timeseries ru pa conv cfg s e obs ch ty (some "")
        = get_timeseries ru pa conv cfg s e obs ch ty none)
    ∧ (put_timeseries cfg ts pst pet (some []) ty iv
        = put_timeseries cfg ts pst pet none ty iv)
    ∧ (put_timeseries cfg ts pst pet ch (some "") iv
        = put_timeseries cfg ts pst pet ch none iv)
    ∧ (put_timeseries cfg ts pst pet ch ty (some "")
        = put_timeseries cfg ts pst pet ch ty none) := by
  refine ⟨?_, ?_, ?_, ?_, ?_, ?_, ?_⟩ <;> rfl

/-- C10, counterexample: the claim "for every empty input timeseries the
call fails with an out-of-bounds access" is false as stated: with a
non-`file://` template the sink check fails first, so the call reports the
unsupported-sink error instead, even though the timeseries is empty and
explicit start/end are supplied. -/
theorem C10_counterexample :
    ¬ (∀ (cfg : FactoryConfig) (st et : Option ℚ) (ch : Option (List String))
        (ty iv : Option String),
        (put_timeseries cfg [] st et ch ty iv).2 = some PyError.indexError) := by
  intro hclaim
  have h := hclaim ⟨"https://example.com/%(obs)s", none, none, none, none⟩
    (some 0) (some 3600) none none none
  have heval : put_timeseries
      ⟨"https://example.com/%(obs)s", none, none, none, none⟩ []
      (some 0) (some 3600) none none none
      = ([], some (PyError.timeseriesFactoryException
          "Only file urls are supported")) := by
    unfold put_timeseries
    rw [if_neg (by decide)]
  rw [heval] at h
  simp at h

/-- C10, amended: once the sink check passes (a `file://` template),
`put_timeseries` unconditionally reads the first trace's stats, so on an
empty timeseries it fails with the out-of-bounds `IndexError` before
resolving any address or writing any file, even when starttime and endtime
are explicitly supplied; with a non-`file://` template the sink error
precedes that read.  A non-empty timeseries is thus a precondition. -/
theorem C10_empty_timeseries (cfg : FactoryConfig) (st et : Option ℚ)
    (ch : Option (List String)) (ty iv : Option String)
    (h : pyStartsWith cfg.urlTemplate "file://" = true) :
    put_timeseries cfg [] st et ch ty iv = ([], some PyError.indexError) := by
  unfold put_timeseries
  rw [if_pos h]

/-- Witness for C10: a `file://` template, an empty stream and explicit
start/end. -/
theorem C10_witness :
    pyStartsWith "file://tmp/%(obs)s%(ymd)s" "file://" = true ∧
    put_timeseries ⟨"file://tmp/%(obs)s%(ymd)s", none, none, none, none⟩ []
        (some 0) (some 3600) none none none
      = ([], some PyError.indexError) :=
  ⟨by decide,
    C10_empty_timeseries ⟨"file://tmp/%(obs)s%(ymd)s", none, none, none, none⟩
      (some 0) (some 3600) none none none (by decide)⟩

/-- Successful runs of `parse_string_core`, characterized: the parser result
has a first timestamp and a first channel, the duration is non-zero, and the
output is one trace per channel with the derived rate and the
`D`-only conversion. -/
lemma parse_string_core_ok {conv : List ℚ → List ℚ} {p : ParserOutput}
    {out : ObsStream} (h : parse_string_core conv p = Except.ok out) :
    ∃ t0 trest c0 s0 drest,
      p.times = t0 :: trest ∧ p.data = (c0, s0) :: drest ∧
      p.times.getLastD 0 - t0 ≠ 0 ∧
      out = p.data.map (fun cd =>
        { stats := { metadata := p.metadata, starttime := t0,
                     sampling_rate := ((s0.length : ℚ) - 1)
                       / (p.times.getLastD 0 - t0),
                     npts := s0.length, channel := cd.1 },
          data := if cd.1 = "D" then conv cd.2 else cd.2 }) := by
  obtain ⟨meta, times, data⟩ := p
  cases times with
  | nil => simp [parse_string_core] at h
  | cons t0 trest =>
    cases data with
    | nil => simp [parse_string_core] at h
    | cons cd0 drest =>
      obtain ⟨c0, s0⟩ := cd0
      simp only [parse_string_core] at h
      split at h
      case isTrue hz => simp at h
      case isFalse hz =>
        refine ⟨t0, trest, c0, s0, drest, rfl, rfl, hz, ?_⟩
        exact (Except.ok.inj h).symm

/-- The sampling rate of every trace produced by a successful
`parse_string_core` run equals `(length - 1) / (endtime - starttime)`
derived from the parsed timestamps and the first channel's sample count. -/
lemma sampling_rate_of_core {conv : List ℚ → List ℚ} {p : ParserOutput}
    {out : ObsStream} (h : parse_string_core conv p = Except.ok out) :
    ∀ tr ∈ out, tr.stats.sampling_rate
      = (((p.data.headD ("", [])).2.length : ℚ) - 1)
          / (p.times.getLastD 0 - p.times.headD 0) := by
  obtain ⟨t0, trest, c0, s0, drest, ht, hd, hz, hform⟩ := parse_string_core_ok h
  subst hform
  intro tr htr
  rcases List.mem_map.mp htr with ⟨cd, hcd, rfl⟩
  rw [ht, hd]
  simp

/-- C7: for every parsed day-unit (at least two timestamps), the sampling
rate stored in every trace's stats equals
`(length - 1) / (endtime - starttime)` with `length` the first channel's
sample count and `starttime`/`endtime` the first and last parsed
timestamps; the rate is never taken from the file header — replacing the
header metadata with any other value yields the same rate. -/
theorem C7_sampling_rate (pa : String → Except PyError ParserOutput)
    (conv : List ℚ → List ℚ) (s : String) (p : ParserOutput)
    (out : ObsStream)
    (hpa : pa s = Except.ok p)
    (hout : parse_string pa conv s = Except.ok out)
    (h2 : 2 ≤ p.times.length) :
    (∀ tr ∈ out, tr.stats.sampling_rate
        = (((p.data.headD ("", [])).2.length : ℚ) - 1)
            / (p.times.getLastD 0 - p.times.headD 0))
    ∧ (∀ (meta2 : Metadata) (out2 : ObsStream),
        parse_string_core conv { p with metadata := meta2 } = Except.ok out2 →
        ∀ tr ∈ out2, tr.stats.sampling_rate
          = (((p.data.headD ("", [])).2.length : ℚ) - 1)
              / (p.times.getLastD 0 - p.times.headD 0)) := by
  have hcore : parse_string_core conv p = Except.ok out := by
    unfold parse_string at hout
    rw [hpa] at hout
    exact hout
  constructor
  · exact sampling_rate_of_core hcore
  · intro meta2 out2 h2'
    have hrate := sampling_rate_of_core h2'
    exact hrate

/-- Witness for C7: the concrete parser result with rate
`(2 - 1) / (60 - 0)`. -/
theorem C7_witness :
    (sampleParse "x" = Except.ok sampleParserOutput ∧
     parse_string sampleParse sampleConv "x" = Except.ok sampleStream ∧
     2 ≤ sampleParserOutput.times.length) ∧
    ((∀ tr ∈ sampleStream, tr.stats.sampling_rate
        = (((sampleParserOutput.data.headD ("", [])).2.length : ℚ) - 1)
            / (sampleParserOutput.times.getLastD 0
                - sampleParserOutput.times.headD 0))
    ∧ (∀ (meta2 : Metadata) (out2 : ObsStream),
        parse_string_core sampleConv
            { sampleParserOutput with metadata := meta2 } = Except.ok out2 →
        ∀ tr ∈ out2, tr.stats.sampling_rate
          = (((sampleParserOutput.data.headD ("", [])).2.length : ℚ) - 1)
              / (sampleParserOutput.times.getLastD 0
                  - sampleParserOutput.times.headD 0))) :=
  ⟨⟨rfl, by
      show parse_string_core sampleConv sampleParserOutput
        = Except.ok sampleStream
      norm_num [parse_string_core, sampleParserOutput, sampleConv,
        sampleStream, sampleMetadata]
      decide, by decide⟩,
    C7_sampling_rate sampleParse sampleConv "x" sampleParserOutput
      sampleStream rfl (by
        show parse_string_core sampleConv sampleParserOutput
          = Except.ok sampleStream
        norm_num [parse_string_core, sampleParserOutput, sampleConv,
          sampleStream, sampleMetadata]
        decide) (by decide)⟩

/-- C8: `parse_string` applies the channel converter to the declination
channel `D` only: every produced trace carries the sample sequence of its
channel from the parser result, passed through `conv` exactly when the
channel is `D` and unchanged otherwise; there is one trace per parsed
channel. -/
theorem C8_declination_only (pa : String → Except PyError ParserOutput)
    (conv : List ℚ → List ℚ) (s : String) (p : ParserOutput)
    (out : ObsStream)
    (hpa : pa s = Except.ok p)
    (hout : parse_string pa conv s = Except.ok out) :
    out.length = p.data.length ∧
    ∀ tr ∈ out, ∃ samples, (tr.stats.channel, samples) ∈ p.data ∧
      tr.data = (if tr.stats.channel = "D" then conv samples else samples) := by
  have hcore : parse_string_core conv p = Except.ok out := by
    unfold parse_string at hout
    rw [hpa] at hout
    exact hout
  obtain ⟨t0, trest, c0, s0, drest, ht, hd, hz, hform⟩ := parse_string_core_ok hcore
  subst hform
  constructor
  · simp
  · intro tr htr
    rcases List.mem_map.mp htr with ⟨cd, hcd, rfl⟩
    exact ⟨cd.2, hcd, rfl⟩

/-- Witness for C8: the concrete parser result; `D` is doubled by the
sample converter, `H` is returned unchanged. -/
theorem C8_witness :
    (sampleParse "y" = Except.ok sampleParserOutput ∧
     parse_string sampleParse sampleConv "y" = Except.ok sampleStream) ∧
    (sampleStream.length = sampleParserOutput.data.length ∧
     ∀ tr ∈ sampleStream, ∃ samples,
       (tr.stats.channel, samples) ∈ sampleParserOutput.data ∧
       tr.data = (if tr.stats.channel = "D" then sampleConv samples
                  else samples)) :=
  ⟨⟨rfl, by
      show parse_string_core sampleConv sampleParserOutput
        = Except.ok sampleStream
      norm_num [parse_string_core, sampleParserOutput, sampleConv,
        sampleStream, sampleMetadata]
      decide⟩,
    C8_declination_only sampleParse sampleConv "y" sampleParserOutput
      sampleStream rfl (by
        show parse_string_core sampleConv sampleParserOutput
          = Except.ok sampleStream
        norm_num [parse_string_core, sampleParserOutput, sampleConv,
          sampleStream, sampleMetadata]
        decide)⟩
